import Mathlib

/-!
Shallow embedding of the todo-group application (`src/App.js`).

The component `TodoApp` owns five pieces of state (`groups`, `groupInput`,
`filter`, `todoInputs`, `loading`).  Each async handler is modelled as a
pure function of the current state, the data it reads from the clock, and
an `Outcome` describing how the awaited network round trip settles: on
`Outcome.err` the `await` rejects, so every line after it is skipped and
the state is left as it was; on `Outcome.ok` the response value is adopted
and the `setX` calls after the `await` run.  The request that the handler
sends (if any) is returned alongside the resulting state.
-/

namespace TodoApp

/-- A todo item: `{ id, text, completed }` as built on line 47 of `App.js`. -/
structure Todo where
  id : Nat
  text : String
  completed : Bool
deriving DecidableEq, Repr

/-- A group resource: `{ id, title, createdAt, todos }` as served by the store. -/
structure Group where
  id : Nat
  title : String
  createdAt : String
  todos : List Todo
deriving DecidableEq, Repr

/-- The global filter, one of the three entries of the `FILTERS` array. -/
inductive Filter where
  | All
  | Active
  | Completed
deriving DecidableEq, Repr

/-- The five `useState` fields owned by the `TodoApp` component.
`todoInputs` is a JS object keyed by group id, modelled as an association
list; absent keys read as `""` via `lookupInput` (matching `|| ""`). -/
structure AppState where
  groups : List Group
  groupInput : String
  filter : Filter
  todoInputs : List (Nat × String)
  loading : Bool
deriving DecidableEq, Repr

/-- Body of the group-creation POST: `{ title, todos: [], createdAt }`. -/
structure GroupCreateBody where
  title : String
  todos : List Todo
  createdAt : String
deriving DecidableEq, Repr

/-- A network request issued by a handler.  A `patch` carries only the
`todos` field, exactly as the JSON body `{ todos: updatedTodos }` does. -/
inductive Request where
  | post (body : GroupCreateBody)
  | patch (groupId : Nat) (todos : List Todo)
  | delete (groupId : Nat)
deriving DecidableEq, Repr

/-- How an awaited round trip settles: `ok` with the parsed response, or a
rejection (`err`) of `fetch`/`res.json()`, which aborts the handler. -/
inductive Outcome (α : Type) where
  | ok (val : α)
  | err
deriving DecidableEq, Repr

/-- `todoInputs[groupId] || ""`: first entry with the key, else `""`. -/
def lookupInput : List (Nat × String) → Nat → String
  | [], _ => ""
  | p :: rest, k => if p.1 == k then p.2 else lookupInput rest k

/-- `{ ...todoInputs, [groupId]: v }`: overwrite the first entry carrying
the key in place (a JS object holds each key once), otherwise append the
key at the end — JS object spread semantics. -/
def setInput : List (Nat × String) → Nat → String → List (Nat × String)
  | [], k, v => [(k, v)]
  | p :: rest, k, v => if p.1 == k then (k, v) :: rest else p :: setInput rest k v

/-- JS `String.prototype.trim`: drop leading and trailing whitespace.
(Modelled structurally over the character list so that it evaluates by
kernel reduction; Lean's own `String.trim` is extensionally the same but
is defined by well-founded recursion on byte positions.) -/
def jsTrim (s : String) : String :=
  ⟨((s.data.dropWhile Char.isWhitespace).reverse.dropWhile Char.isWhitespace).reverse⟩

/-- Lines 84-88: the filter projector `getFilteredTodos`. -/
def getFilteredTodos (filter : Filter) (todos : List Todo) : List Todo :=
  if filter = Filter.Active then todos.filter (fun t => !t.completed)
  else if filter = Filter.Completed then todos.filter (fun t => t.completed)
  else todos

/-- Line 47: `[...group.todos, { id: Date.now(), text, completed: false }]`. -/
def addTodoCandidate (group : Group) (now : Nat) (text : String) : List Todo :=
  group.todos ++ [⟨now, text, false⟩]

/-- Lines 60-62: flip `completed` on the todos whose id matches. -/
def toggleTodoCandidate (group : Group) (todoId : Nat) : List Todo :=
  group.todos.map (fun t => if t.id == todoId then { t with completed := !t.completed } else t)

/-- Line 74: `group.todos.filter(t => t.id !== todoId)`. -/
def deleteTodoCandidate (group : Group) (todoId : Nat) : List Todo :=
  group.todos.filter (fun t => t.id != todoId)

/-- Lines 23-35: `addGroup`.  Trim the title buffer; if empty, return with
no request.  Otherwise POST `{title, todos: [], createdAt}`; once the
response is adopted, append it to `groups` and clear `groupInput`. -/
def addGroup (s : AppState) (createdAt : String) (outcome : Outcome Group) :
    Option Request × AppState :=
  let title := jsTrim s.groupInput
  if title = "" then (none, s)
  else
    let req := Request.post ⟨title, [], createdAt⟩
    match outcome with
    | Outcome.ok saved =>
        (some req, { s with groups := s.groups ++ [saved], groupInput := "" })
    | Outcome.err => (some req, s)

/-- Lines 37-40: `deleteGroup`.  DELETE by id; after the await settles
successfully, drop the groups whose id matches. -/
def deleteGroup (s : AppState) (groupId : Nat) (outcome : Outcome Unit) :
    Option Request × AppState :=
  let req := Request.delete groupId
  match outcome with
  | Outcome.ok _ =>
      (some req, { s with groups := s.groups.filter (fun g => g.id != groupId) })
  | Outcome.err => (some req, s)

/-- Lines 43-56: `addTodo`.  Trim that group's buffer; if empty, no-op.
Locate the group (a missing group makes the JS throw on `group.todos`
before any request: modelled as no request, state unchanged).  PATCH the
candidate todos; on response, replace the matching group by the returned
one and clear the buffer. -/
def addTodo (s : AppState) (groupId : Nat) (now : Nat) (outcome : Outcome Group) :
    Option Request × AppState :=
  let text := jsTrim (lookupInput s.todoInputs groupId)
  if text = "" then (none, s)
  else
    match s.groups.find? (fun g => g.id == groupId) with
    | none => (none, s)
    | some group =>
      let req := Request.patch groupId (addTodoCandidate group now text)
      match outcome with
      | Outcome.ok updated =>
          (some req,
           { s with
             groups := s.groups.map (fun g => if g.id == groupId then updated else g),
             todoInputs := setInput s.todoInputs groupId "" })
      | Outcome.err => (some req, s)

/-- Lines 58-70: `toggleTodo`. -/
def toggleTodo (s : AppState) (groupId : Nat) (todoId : Nat) (outcome : Outcome Group) :
    Option Request × AppState :=
  match s.groups.find? (fun g => g.id == groupId) with
  | none => (none, s)
  | some group =>
    let req := Request.patch groupId (toggleTodoCandidate group todoId)
    match outcome with
    | Outcome.ok updated =>
        (some req,
         { s with groups := s.groups.map (fun g => if g.id == groupId then updated else g) })
    | Outcome.err => (some req, s)

/-- Lines 72-82: `deleteTodo`. -/
def deleteTodo (s : AppState) (groupId : Nat) (todoId : Nat) (outcome : Outcome Group) :
    Option Request × AppState :=
  match s.groups.find? (fun g => g.id == groupId) with
  | none => (none, s)
  | some group =>
    let req := Request.patch groupId (deleteTodoCandidate group todoId)
    match outcome with
    | Outcome.ok updated =>
        (some req,
         { s with groups := s.groups.map (fun g => if g.id == groupId then updated else g) })
    | Outcome.err => (some req, s)

/-- What the render computes per group (lines 133-134 and 195-197): the
projected todos, the `remaining` count over the full `group.todos`, and
whether the footer is shown.  `filter` is the global filter in scope. -/
structure GroupView where
  visible : List Todo
  remaining : Nat
  showFooter : Bool
deriving DecidableEq, Repr

/-- Lines 132-134, 195-197 of the render body. -/
def renderGroup (filter : Filter) (g : Group) : GroupView :=
  { visible := getFilteredTodos filter g.todos
    remaining := (g.todos.filter (fun t => !t.completed)).length
    showFooter := decide (g.todos.length > 0) }

/-- The component's initial state (lines 8-12). -/
def initState : AppState :=
  { groups := [], groupInput := "", filter := Filter.All, todoInputs := [], loading := true }

/-- Lines 14-20: the mount effect.  `fetch(API).then(json).then(setGroups)
.catch(alert).finally(setLoading false)`.  Returns the state after the
chain settles together with the number of alerts fired. -/
def initialLoad (outcome : Outcome (List Group)) : AppState × Nat :=
  match outcome with
  | Outcome.ok data => ({ initState with groups := data, loading := false }, 0)
  | Outcome.err => ({ initState with loading := false }, 1)

/-- The ids of a todo list. -/
def todoIdsOf (todos : List Todo) : List Nat :=
  todos.map (fun t => t.id)

/-- Id-uniqueness of a todo list. -/
def listTodoIdsUnique (todos : List Todo) : Prop :=
  (todoIdsOf todos).Nodup

instance (todos : List Todo) : Decidable (listTodoIdsUnique todos) :=
  List.nodupDecidable _

/-- Id-uniqueness inside one group. -/
def todoIdsUnique (g : Group) : Prop :=
  listTodoIdsUnique g.todos

instance (g : Group) : Decidable (todoIdsUnique g) :=
  List.nodupDecidable _

/-- The invariant: within every group held by the Synchronizer, todo ids
are pairwise distinct. -/
def groupsTodoIdsUnique (s : AppState) : Prop :=
  ∀ g ∈ s.groups, todoIdsUnique g

instance (s : AppState) : Decidable (groupsTodoIdsUnique s) :=
  List.decidableBAll _ _

/-! ### Concrete sample data used to instantiate the theorems -/

/-- A sample active todo. -/
def sampleTodoA : Todo := ⟨5, "a", false⟩

/-- A sample completed todo. -/
def sampleTodoB : Todo := ⟨6, "b", true⟩

/-- A sample group holding one active and one completed todo. -/
def sampleGroup : Group := ⟨1, "g", "Jan 1, 2024", [sampleTodoA, sampleTodoB]⟩

/-- A sample state with non-blank input buffers. -/
def sampleState : AppState :=
  { groups := [sampleGroup], groupInput := " hi ", filter := Filter.All,
    todoInputs := [(1, " buy ")], loading := false }

/-- A sample state whose input buffers trim to the empty string. -/
def blankState : AppState :=
  { groups := [sampleGroup], groupInput := "   ", filter := Filter.All,
    todoInputs := [(1, "  ")], loading := false }

/-- The group the server would echo back if `addTodo` ran on `sampleState`
at an instant whose millisecond clock reads `5` — colliding with the id of
`sampleTodoA`. -/
def echoedGroup : Group :=
  { sampleGroup with todos := sampleGroup.todos ++ [⟨5, "buy", false⟩] }

/-- The group the server would echo back for `addTodo` at instant `99`,
which collides with no existing id. -/
def freshGroup : Group :=
  { sampleGroup with todos := sampleGroup.todos ++ [⟨99, "buy", false⟩] }

/-! ## Claim C1: the filter projector is pure and projects by `completed` -/

/-- C1: `getFilteredTodos` is a pure function of the todo sequence and the
filter mode: `All` returns the input unchanged; `Active` returns exactly
the subsequence of todos with `completed = false` (a sublist, so relative
order is preserved); `Completed` returns exactly the subsequence with
`completed = true`. -/
theorem c1_filter_projector (todos : List Todo) :
    getFilteredTodos Filter.All todos = todos
    ∧ getFilteredTodos Filter.Active todos = todos.filter (fun t => decide (t.completed = false))
    ∧ (getFilteredTodos Filter.Active todos).Sublist todos
    ∧ (∀ t ∈ getFilteredTodos Filter.Active todos, t.completed = false)
    ∧ getFilteredTodos Filter.Completed todos = todos.filter (fun t => decide (t.completed = true))
    ∧ (getFilteredTodos Filter.Completed todos).Sublist todos
    ∧ (∀ t ∈ getFilteredTodos Filter.Completed todos, t.completed = true) := by
  have hactive : (fun t : Todo => !t.completed) = fun t => decide (t.completed = false) := by
    funext t
    cases t.completed <;> rfl
  have hcompleted : (fun t : Todo => t.completed) = fun t => decide (t.completed = true) := by
    funext t
    cases t.completed <;> rfl
  have hA : getFilteredTodos Filter.Active todos = todos.filter (fun t => !t.completed) := rfl
  have hC : getFilteredTodos Filter.Completed todos = todos.filter (fun t => t.completed) := rfl
  refine ⟨rfl, ?_, ?_, ?_, ?_, ?_, ?_⟩
  · rw [hA, hactive]
  · rw [hA]
    exact List.filter_sublist todos
  · intro t ht
    rw [hA] at ht
    have := List.of_mem_filter ht
    simpa using this
  · rw [hC, hcompleted]
  · rw [hC]
    exact List.filter_sublist todos
  · intro t ht
    rw [hC] at ht
    have := List.of_mem_filter ht
    simpa using this

/-- Witness for C1 at a concrete two-todo list. -/
theorem c1_filter_projector_witness :
    (∀ t ∈ getFilteredTodos Filter.Active [⟨1, "a", false⟩, ⟨2, "b", true⟩], t.completed = false)
    ∧ (∀ t ∈ getFilteredTodos Filter.Completed [⟨1, "a", false⟩, ⟨2, "b", true⟩],
        t.completed = true) :=
  ⟨(c1_filter_projector [⟨1, "a", false⟩, ⟨2, "b", true⟩]).2.2.2.1,
   (c1_filter_projector [⟨1, "a", false⟩, ⟨2, "b", true⟩]).2.2.2.2.2.2⟩

/-! ## Claim C2: the footer count is filter-independent -/

/-- C2: the `remaining` count rendered in the group footer counts the
todos with `completed = false` over the full, unfiltered `group.todos`,
and is the same under every filter mode. -/
theorem c2_remaining_count (mode mode2 : Filter) (g : Group) :
    (renderGroup mode g).remaining = (renderGroup mode2 g).remaining
    ∧ (renderGroup mode g).remaining = g.todos.countP (fun t => decide (t.completed = false)) := by
  have hpred : (fun t : Todo => !t.completed) = fun t => decide (t.completed = false) := by
    funext t
    cases t.completed <;> rfl
  constructor
  · rfl
  · simp only [renderGroup, hpred, List.countP_eq_length_filter]

/-! ## Claim C4: addGroup is atomic and clears the input only after adoption -/

/-- C4: with a non-blank title buffer, `addGroup` issues the creation
POST; on success the server-returned group is appended at the end of
`groups` and `groupInput` becomes `""`; on failure the same request was
issued but the whole state — `groups` and the still-un-cleared
`groupInput` included — is exactly the starting state. -/
theorem c4_add_group_atomic (s : AppState) (createdAt : String) (saved : Group)
    (h : jsTrim s.groupInput ≠ "") :
    (addGroup s createdAt (Outcome.ok saved)).1
      = some (Request.post ⟨jsTrim s.groupInput, [], createdAt⟩)
    ∧ (addGroup s createdAt (Outcome.ok saved)).2.groups = s.groups ++ [saved]
    ∧ (addGroup s createdAt (Outcome.ok saved)).2.groupInput = ""
    ∧ (addGroup s createdAt Outcome.err).1
      = some (Request.post ⟨jsTrim s.groupInput, [], createdAt⟩)
    ∧ (addGroup s createdAt Outcome.err).2 = s := by
  have hok : addGroup s createdAt (Outcome.ok saved)
      = (some (Request.post ⟨jsTrim s.groupInput, [], createdAt⟩),
         { s with groups := s.groups ++ [saved], groupInput := "" }) := by
    simp [addGroup, h]
  have herr : addGroup s createdAt Outcome.err
      = (some (Request.post ⟨jsTrim s.groupInput, [], createdAt⟩), s) := by
    simp [addGroup, h]
  rw [hok, herr]
  exact ⟨rfl, rfl, rfl, rfl, rfl⟩

/-- Witness for C4 at `sampleState`. -/
theorem c4_add_group_atomic_witness :
    jsTrim sampleState.groupInput ≠ ""
    ∧ ((addGroup sampleState "Jan 1, 2024" (Outcome.ok sampleGroup)).1
        = some (Request.post ⟨jsTrim sampleState.groupInput, [], "Jan 1, 2024"⟩)
      ∧ (addGroup sampleState "Jan 1, 2024" (Outcome.ok sampleGroup)).2.groups
        = sampleState.groups ++ [sampleGroup]
      ∧ (addGroup sampleState "Jan 1, 2024" (Outcome.ok sampleGroup)).2.groupInput = ""
      ∧ (addGroup sampleState "Jan 1, 2024" Outcome.err).1
        = some (Request.post ⟨jsTrim sampleState.groupInput, [], "Jan 1, 2024"⟩)
      ∧ (addGroup sampleState "Jan 1, 2024" Outcome.err).2 = sampleState) :=
  ⟨by decide, c4_add_group_atomic sampleState "Jan 1, 2024" sampleGroup (by decide)⟩

/-! ## Claim C5: blank input buffers make addGroup and addTodo no-ops -/

/-- C5: when the relevant buffer trims to `""`, `addGroup` and `addTodo`
issue no request and return every state component unchanged. -/
theorem c5_blank_input_noop (s : AppState) (createdAt : String) (gid now : Nat)
    (o o2 : Outcome Group) :
    (jsTrim s.groupInput = "" → addGroup s createdAt o = (none, s))
    ∧ (jsTrim (lookupInput s.todoInputs gid) = "" → addTodo s gid now o2 = (none, s)) := by
  constructor
  · intro h
    simp [addGroup, h]
  · intro h
    simp [addTodo, h]

/-- Witness for C5 at `blankState`, whose two buffers are whitespace. -/
theorem c5_blank_input_noop_witness :
    addGroup blankState "d" (Outcome.ok sampleGroup) = (none, blankState)
    ∧ addTodo blankState 1 99 (Outcome.ok sampleGroup) = (none, blankState) :=
  ⟨(c5_blank_input_noop blankState "d" 1 99 (Outcome.ok sampleGroup)
      (Outcome.ok sampleGroup)).1 (by decide),
   (c5_blank_input_noop blankState "d" 1 99 (Outcome.ok sampleGroup)
      (Outcome.ok sampleGroup)).2 (by decide)⟩

/-! ## Claim C8: deleteGroup removes by id only after the request settles -/

/-- C8: `deleteGroup` issues the DELETE addressed by the given id in both
outcomes; on a rejected request the state is untouched (no optimistic
removal), and on settlement the new `groups` is a sublist of the old
(relative order preserved) containing exactly the old groups whose id
differs from the deleted id. -/
theorem c8_delete_group (s : AppState) (gid : Nat) :
    (deleteGroup s gid Outcome.err).1 = some (Request.delete gid)
    ∧ (deleteGroup s gid Outcome.err).2 = s
    ∧ (deleteGroup s gid (Outcome.ok ())).1 = some (Request.delete gid)
    ∧ (deleteGroup s gid (Outcome.ok ())).2.groups.Sublist s.groups
    ∧ (∀ g, g ∈ (deleteGroup s gid (Outcome.ok ())).2.groups ↔ g ∈ s.groups ∧ g.id ≠ gid) := by
  refine ⟨rfl, rfl, rfl, ?_, ?_⟩
  · exact List.filter_sublist s.groups
  · intro g
    show g ∈ s.groups.filter (fun g => g.id != gid) ↔ g ∈ s.groups ∧ g.id ≠ gid
    simp [List.mem_filter]

/-- Witness for C8 at `sampleState` and id `1`. -/
theorem c8_delete_group_witness :
    (deleteGroup sampleState 1 Outcome.err).2 = sampleState
    ∧ (sampleGroup ∈ (deleteGroup sampleState 1 (Outcome.ok ())).2.groups
        ↔ sampleGroup ∈ sampleState.groups ∧ sampleGroup.id ≠ 1) :=
  ⟨(c8_delete_group sampleState 1).2.1,
   (c8_delete_group sampleState 1).2.2.2.2 sampleGroup⟩

/-! ## Claim C9: the initial fetch clears loading on both paths -/

/-- C9: after the initial fetch settles, `loading` is `false` on the
success and the failure path; on success `groups` is the returned
sequence and no alert fires; on failure exactly one alert fires and
`groups` stays empty. -/
theorem c9_initial_load :
    (∀ o : Outcome (List Group), (initialLoad o).1.loading = false)
    ∧ (∀ data : List Group,
        (initialLoad (Outcome.ok data)).1.groups = data
        ∧ (initialLoad (Outcome.ok data)).2 = 0)
    ∧ (initialLoad Outcome.err).2 = 1
    ∧ (initialLoad Outcome.err).1.groups = [] := by
  refine ⟨?_, ?_, rfl, rfl⟩
  · intro o
    cases o <;> rfl
  · intro data
    exact ⟨rfl, rfl⟩

/-! ## Claim C10: deleteGroup leaves every other state component alone -/

/-- C10: in both outcomes, `deleteGroup` leaves `groupInput`, `filter`,
the whole `todoInputs` mapping and `loading` unchanged; in particular the
buffer keyed by the deleted group's id still reads the same value. -/
theorem c10_delete_group_frame (s : AppState) (gid : Nat) (o : Outcome Unit) :
    (deleteGroup s gid o).2.groupInput = s.groupInput
    ∧ (deleteGroup s gid o).2.filter = s.filter
    ∧ (deleteGroup s gid o).2.todoInputs = s.todoInputs
    ∧ (deleteGroup s gid o).2.loading = s.loading
    ∧ lookupInput (deleteGroup s gid o).2.todoInputs gid = lookupInput s.todoInputs gid := by
  cases o with
  | ok v => exact ⟨rfl, rfl, rfl, rfl, rfl⟩
  | err => exact ⟨rfl, rfl, rfl, rfl, rfl⟩

/-! ## Helper lemmas about the `todoInputs` association list -/

theorem lookupInput_setInput_self (m : List (Nat × String)) (k : Nat) (v : String) :
    lookupInput (setInput m k v) k = v := by
  induction m with
  | nil => simp [setInput, lookupInput]
  | cons p rest ih =>
    cases hpk : (p.1 == k) with
    | true => simp [setInput, lookupInput, hpk]
    | false => simp [setInput, lookupInput, hpk, ih]

theorem lookupInput_setInput_ne (m : List (Nat × String)) (k k2 : Nat) (v : String)
    (h : k2 ≠ k) :
    lookupInput (setInput m k v) k2 = lookupInput m k2 := by
  have hkk2 : (k == k2) = false := by
    simp [Ne.symm h]
  induction m with
  | nil => simp [setInput, lookupInput, hkk2]
  | cons p rest ih =>
    cases hpk : (p.1 == k) with
    | true =>
      have hp : p.1 = k := by simpa using hpk
      simp [setInput, lookupInput, hpk, hp, hkk2]
    | false => simp [setInput, lookupInput, hpk, ih]

/-! ## Claim C6: addTodo appends one new todo and adopts the response -/

/-- C6: with a non-blank buffer for an existing group `g`, `addTodo`
PATCHes that group id with a body holding only a todos sequence, equal to
`g`'s todos plus exactly one appended todo whose id is the clock value,
whose text is the trimmed buffer and whose `completed` is false; the
resulting `groups` replaces exactly the positions whose id matches with
the server-returned group, and that group's buffer reads `""` while every
other buffer is untouched (other state components unchanged). -/
theorem c6_add_todo (s : AppState) (gid now : Nat) (g updated : Group)
    (htext : jsTrim (lookupInput s.todoInputs gid) ≠ "")
    (hfind : s.groups.find? (fun x => x.id == gid) = some g) :
    (addTodo s gid now (Outcome.ok updated)).1
      = some (Request.patch gid
          (g.todos ++ [⟨now, jsTrim (lookupInput s.todoInputs gid), false⟩]))
    ∧ (addTodo s gid now (Outcome.ok updated)).2.groups.length = s.groups.length
    ∧ (∀ (i : Nat) (g2 : Group), s.groups[i]? = some g2 →
        (addTodo s gid now (Outcome.ok updated)).2.groups[i]?
          = some (if g2.id = gid then updated else g2))
    ∧ lookupInput (addTodo s gid now (Outcome.ok updated)).2.todoInputs gid = ""
    ∧ (∀ k, k ≠ gid →
        lookupInput (addTodo s gid now (Outcome.ok updated)).2.todoInputs k
          = lookupInput s.todoInputs k)
    ∧ (addTodo s gid now (Outcome.ok updated)).2.groupInput = s.groupInput
    ∧ (addTodo s gid now (Outcome.ok updated)).2.filter = s.filter
    ∧ (addTodo s gid now (Outcome.ok updated)).2.loading = s.loading := by
  have hstep : addTodo s gid now (Outcome.ok updated)
      = (some (Request.patch gid
            (addTodoCandidate g now (jsTrim (lookupInput s.todoInputs gid)))),
         { s with
           groups := s.groups.map (fun x => if x.id == gid then updated else x),
           todoInputs := setInput s.todoInputs gid "" }) := by
    simp [addTodo, htext, hfind]
  rw [hstep]
  refine ⟨rfl, by simp, ?_, ?_, ?_, rfl, rfl, rfl⟩
  · intro i g2 hi
    show (s.groups.map (fun x => if x.id == gid then updated else x))[i]?
      = some (if g2.id = gid then updated else g2)
    rw [List.getElem?_map, hi]
    by_cases hg2 : g2.id = gid <;> simp [hg2]
  · exact lookupInput_setInput_self s.todoInputs gid ""
  · intro k hk
    exact lookupInput_setInput_ne s.todoInputs gid k "" hk

/-- Witness for C6 at `sampleState`, group `1`, clock value `99`. -/
theorem c6_add_todo_witness :
    jsTrim (lookupInput sampleState.todoInputs 1) ≠ ""
    ∧ sampleState.groups.find? (fun x => x.id == 1) = some sampleGroup
    ∧ (addTodo sampleState 1 99 (Outcome.ok freshGroup)).1
      = some (Request.patch 1
          (sampleGroup.todos ++ [⟨99, jsTrim (lookupInput sampleState.todoInputs 1), false⟩]))
    ∧ lookupInput (addTodo sampleState 1 99 (Outcome.ok freshGroup)).2.todoInputs 1 = "" := by
  have h := c6_add_todo sampleState 1 99 sampleGroup freshGroup (by decide) (by decide)
  exact ⟨by decide, by decide, h.1, h.2.2.2.1⟩

/-! ## Claim C7: the toggle candidate flips exactly the matching todo -/

/-- C7: for an existing group `g`, the candidate sequence that
`toggleTodo` builds (and sends as the PATCH body) has the same length and
order as `g`'s todos, keeps every todo's id and text, flips `completed`
at the positions whose id equals `todoId`, and leaves every other todo
entirely unchanged. -/
theorem c7_toggle_candidate (s : AppState) (gid tid : Nat) (g : Group) (o : Outcome Group)
    (hfind : s.groups.find? (fun x => x.id == gid) = some g) :
    (toggleTodo s gid tid o).1 = some (Request.patch gid (toggleTodoCandidate g tid))
    ∧ (toggleTodoCandidate g tid).length = g.todos.length
    ∧ (∀ (i : Nat) (t : Todo), g.todos[i]? = some t →
        ∃ t2, (toggleTodoCandidate g tid)[i]? = some t2
          ∧ t2.id = t.id ∧ t2.text = t.text
          ∧ (t.id = tid → t2.completed = !t.completed)
          ∧ (t.id ≠ tid → t2 = t)) := by
  refine ⟨?_, by simp [toggleTodoCandidate], ?_⟩
  · cases o with
    | ok updated => simp [toggleTodo, hfind]
    | err => simp [toggleTodo, hfind]
  · intro i t hi
    refine ⟨if t.id == tid then { t with completed := !t.completed } else t, ?_, ?_, ?_, ?_, ?_⟩
    · show (g.todos.map fun t =>
          if t.id == tid then { t with completed := !t.completed } else t)[i]?
        = some (if t.id == tid then { t with completed := !t.completed } else t)
      rw [List.getElem?_map, hi]
      rfl
    · by_cases htid : t.id = tid <;> simp [htid]
    · by_cases htid : t.id = tid <;> simp [htid]
    · intro htid
      simp [htid]
    · intro htid
      simp [htid]

/-- Witness for C7 at `sampleState`, group `1`, toggling todo `5`. -/
theorem c7_toggle_candidate_witness :
    sampleState.groups.find? (fun x => x.id == 1) = some sampleGroup
    ∧ (toggleTodo sampleState 1 5 Outcome.err).1
      = some (Request.patch 1 (toggleTodoCandidate sampleGroup 5))
    ∧ (toggleTodoCandidate sampleGroup 5).length = sampleGroup.todos.length
    ∧ (∃ t2, (toggleTodoCandidate sampleGroup 5)[0]? = some t2
        ∧ t2.id = sampleTodoA.id ∧ t2.text = sampleTodoA.text
        ∧ (sampleTodoA.id = 5 → t2.completed = !sampleTodoA.completed)
        ∧ (sampleTodoA.id ≠ 5 → t2 = sampleTodoA)) := by
  have h := c7_toggle_candidate sampleState 1 5 sampleGroup Outcome.err (by decide)
  exact ⟨by decide, h.1, h.2.1, h.2.2 0 sampleTodoA (by decide)⟩

/-! ## Helper lemmas about the todo-id uniqueness invariant -/

theorem addTodo_ok_groups (s : AppState) (gid now : Nat) (updated : Group) :
    (addTodo s gid now (Outcome.ok updated)).2.groups = s.groups
    ∨ (addTodo s gid now (Outcome.ok updated)).2.groups
        = s.groups.map (fun g => if g.id == gid then updated else g) := by
  by_cases h : jsTrim (lookupInput s.todoInputs gid) = ""
  · left
    simp [addTodo, h]
  · cases hf : s.groups.find? (fun g => g.id == gid) with
    | none =>
      left
      simp [addTodo, h, hf]
    | some g =>
      right
      simp [addTodo, h, hf]

theorem toggleTodo_ok_groups (s : AppState) (gid tid : Nat) (updated : Group) :
    (toggleTodo s gid tid (Outcome.ok updated)).2.groups = s.groups
    ∨ (toggleTodo s gid tid (Outcome.ok updated)).2.groups
        = s.groups.map (fun g => if g.id == gid then updated else g) := by
  cases hf : s.groups.find? (fun g => g.id == gid) with
  | none =>
    left
    simp [toggleTodo, hf]
  | some g =>
    right
    simp [toggleTodo, hf]

theorem deleteTodo_ok_groups (s : AppState) (gid tid : Nat) (updated : Group) :
    (deleteTodo s gid tid (Outcome.ok updated)).2.groups = s.groups
    ∨ (deleteTodo s gid tid (Outcome.ok updated)).2.groups
        = s.groups.map (fun g => if g.id == gid then updated else g) := by
  cases hf : s.groups.find? (fun g => g.id == gid) with
  | none =>
    left
    simp [deleteTodo, hf]
  | some g =>
    right
    simp [deleteTodo, hf]

theorem addGroup_ok_groups (s : AppState) (createdAt : String) (saved : Group) :
    (addGroup s createdAt (Outcome.ok saved)).2.groups = s.groups
    ∨ (addGroup s createdAt (Outcome.ok saved)).2.groups = s.groups ++ [saved] := by
  by_cases h : jsTrim s.groupInput = ""
  · left
    simp [addGroup, h]
  · right
    simp [addGroup, h]

theorem addTodo_err_state (s : AppState) (gid now : Nat) :
    (addTodo s gid now Outcome.err).2 = s := by
  by_cases h : jsTrim (lookupInput s.todoInputs gid) = ""
  · simp [addTodo, h]
  · cases hf : s.groups.find? (fun g => g.id == gid) with
    | none => simp [addTodo, h, hf]
    | some g => simp [addTodo, h, hf]

theorem toggleTodo_err_state (s : AppState) (gid tid : Nat) :
    (toggleTodo s gid tid Outcome.err).2 = s := by
  cases hf : s.groups.find? (fun g => g.id == gid) with
  | none => simp [toggleTodo, hf]
  | some g => simp [toggleTodo, hf]

theorem deleteTodo_err_state (s : AppState) (gid tid : Nat) :
    (deleteTodo s gid tid Outcome.err).2 = s := by
  cases hf : s.groups.find? (fun g => g.id == gid) with
  | none => simp [deleteTodo, hf]
  | some g => simp [deleteTodo, hf]

theorem addGroup_err_state (s : AppState) (createdAt : String) :
    (addGroup s createdAt Outcome.err).2 = s := by
  by_cases h : jsTrim s.groupInput = ""
  · simp [addGroup, h]
  · simp [addGroup, h]

theorem todoIdsUnique_replace (gs : List Group) (gid : Nat) (updated : Group)
    (hs : ∀ g ∈ gs, todoIdsUnique g) (hu : todoIdsUnique updated) :
    ∀ g ∈ gs.map (fun g => if g.id == gid then updated else g), todoIdsUnique g := by
  intro g hg
  rcases List.mem_map.1 hg with ⟨g0, hg0, rfl⟩
  by_cases h : (g0.id == gid) = true
  · rw [if_pos h]
    exact hu
  · rw [if_neg h]
    exact hs g0 hg0

theorem addTodoCandidate_nodup (g : Group) (now : Nat) (txt : String)
    (hg : todoIdsUnique g) (hnow : now ∉ todoIdsOf g.todos) :
    listTodoIdsUnique (addTodoCandidate g now txt) := by
  unfold listTodoIdsUnique todoIdsOf addTodoCandidate
  rw [List.map_append, List.nodup_append]
  refine ⟨hg, by simp, ?_⟩
  intro a ha hb
  simp only [List.map_cons, List.map_nil, List.mem_singleton] at hb
  subst hb
  exact hnow ha

theorem toggleTodoCandidate_ids (g : Group) (tid : Nat) :
    todoIdsOf (toggleTodoCandidate g tid) = todoIdsOf g.todos := by
  unfold toggleTodoCandidate todoIdsOf
  rw [List.map_map]
  have hfun : ((fun t : Todo => t.id)
        ∘ (fun t => if t.id == tid then { t with completed := !t.completed } else t))
      = fun t : Todo => t.id := by
    funext t
    by_cases h : (t.id == tid) = true
    · rw [Function.comp_apply, if_pos h]
    · rw [Function.comp_apply, if_neg h]
  rw [hfun]

theorem toggleTodoCandidate_nodup (g : Group) (tid : Nat) (hg : todoIdsUnique g) :
    listTodoIdsUnique (toggleTodoCandidate g tid) := by
  unfold listTodoIdsUnique
  rw [toggleTodoCandidate_ids]
  exact hg

theorem deleteTodoCandidate_nodup (g : Group) (tid : Nat) (hg : todoIdsUnique g) :
    listTodoIdsUnique (deleteTodoCandidate g tid) := by
  unfold listTodoIdsUnique todoIdsOf deleteTodoCandidate
  exact List.Nodup.sublist
    (List.Sublist.map (fun t => t.id) (List.filter_sublist g.todos)) hg

/-! ## Claim C3: todo-id uniqueness under the time-based id generator -/

/-- C3 counterexample: starting from a state satisfying the invariant, if
`addTodo` runs at the millisecond instant `5` — which is already the id of
an existing todo in the group — the PATCH body it sends carries a
duplicated id, and adopting the echoed response (the store echoes the
todos array it was sent) leaves the Synchronizer holding a group whose
todo ids are not pairwise distinct. -/
theorem c3_counterexample :
    groupsTodoIdsUnique sampleState
    ∧ (addTodo sampleState 1 5 (Outcome.ok echoedGroup)).1
        = some (Request.patch 1 echoedGroup.todos)
    ∧ ¬ groupsTodoIdsUnique (addTodo sampleState 1 5 (Outcome.ok echoedGroup)).2 :=
  ⟨by decide, by decide, by decide⟩

/-- C3 amended: the candidate sequences built by `toggleTodo` and
`deleteTodo` preserve id-uniqueness unconditionally, and the one built by
`addTodo` preserves it provided the clock value used as the new id does
not already occur among the group's todo ids; every operation's success
path preserves the state invariant provided the server-returned group
itself has pairwise-distinct todo ids, and every failure path preserves
it unconditionally. -/
theorem c3_id_uniqueness_amended (s : AppState) (gid now tid : Nat)
    (txt createdAt : String) (updated saved : Group)
    (hs : groupsTodoIdsUnique s)
    (hupdated : todoIdsUnique updated) (hsaved : todoIdsUnique saved) :
    (∀ g : Group, todoIdsUnique g → now ∉ todoIdsOf g.todos →
        listTodoIdsUnique (addTodoCandidate g now txt))
    ∧ (∀ g : Group, todoIdsUnique g → listTodoIdsUnique (toggleTodoCandidate g tid))
    ∧ (∀ g : Group, todoIdsUnique g → listTodoIdsUnique (deleteTodoCandidate g tid))
    ∧ groupsTodoIdsUnique (addTodo s gid now (Outcome.ok updated)).2
    ∧ groupsTodoIdsUnique (toggleTodo s gid tid (Outcome.ok updated)).2
    ∧ groupsTodoIdsUnique (deleteTodo s gid tid (Outcome.ok updated)).2
    ∧ groupsTodoIdsUnique (addGroup s createdAt (Outcome.ok saved)).2
    ∧ groupsTodoIdsUnique (deleteGroup s gid (Outcome.ok ())).2
    ∧ groupsTodoIdsUnique (addTodo s gid now Outcome.err).2
    ∧ groupsTodoIdsUnique (toggleTodo s gid tid Outcome.err).2
    ∧ groupsTodoIdsUnique (deleteTodo s gid tid Outcome.err).2
    ∧ groupsTodoIdsUnique (addGroup s createdAt Outcome.err).2
    ∧ groupsTodoIdsUnique (deleteGroup s gid Outcome.err).2 := by
  have hmap : ∀ gs2 : List Group, gs2 = s.groups
      ∨ gs2 = s.groups.map (fun g => if g.id == gid then updated else g) →
      ∀ g ∈ gs2, todoIdsUnique g := by
    intro gs2 hcase
    cases hcase with
    | inl h =>
      rw [h]
      exact hs
    | inr h =>
      rw [h]
      exact todoIdsUnique_replace s.groups gid updated hs hupdated
  refine ⟨?_, ?_, ?_, ?_, ?_, ?_, ?_, ?_, ?_, ?_, ?_, ?_, ?_⟩
  · intro g hg hnow
    exact addTodoCandidate_nodup g now txt hg hnow
  · intro g hg
    exact toggleTodoCandidate_nodup g tid hg
  · intro g hg
    exact deleteTodoCandidate_nodup g tid hg
  · exact hmap _ (addTodo_ok_groups s gid now updated)
  · exact hmap _ (toggleTodo_ok_groups s gid tid updated)
  · exact hmap _ (deleteTodo_ok_groups s gid tid updated)
  · cases addGroup_ok_groups s createdAt saved with
    | inl h =>
      intro g hg
      rw [h] at hg
      exact hs g hg
    | inr h =>
      intro g hg
      rw [h] at hg
      cases List.mem_append.1 hg with
      | inl hmem => exact hs g hmem
      | inr hmem =>
        rw [List.mem_singleton.1 hmem]
        exact hsaved
  · intro g hg
    have : g ∈ s.groups.filter (fun g => g.id != gid) := hg
    exact hs g (List.mem_of_mem_filter this)
  · rw [addTodo_err_state s gid now]
    exact hs
  · rw [toggleTodo_err_state s gid tid]
    exact hs
  · rw [deleteTodo_err_state s gid tid]
    exact hs
  · rw [addGroup_err_state s createdAt]
    exact hs
  · exact hs

/-- Witness for the amended C3 at `sampleState` with the fresh clock
value `99`. -/
theorem c3_id_uniqueness_amended_witness :
    groupsTodoIdsUnique (addTodo sampleState 1 99 (Outcome.ok freshGroup)).2
    ∧ listTodoIdsUnique (addTodoCandidate sampleGroup 99 "buy")
    ∧ listTodoIdsUnique (toggleTodoCandidate sampleGroup 5) := by
  have h := c3_id_uniqueness_amended sampleState 1 99 5 "buy" "d" freshGroup freshGroup
    (by decide) (by decide) (by decide)
  exact ⟨h.2.2.2.1, h.1 sampleGroup (by decide) (by decide), h.2.1 sampleGroup (by decide)⟩

end TodoApp
